import Mathlib

/-!
Shallow embedding of the HomeClimatePlus dashboard application.

The embedding follows the source files:
* `src/Pages/HomePage.tsx` — dashboard mock-state engine (device status,
  realtime stats, single-slot undo buffer, interval tick).
* `src/router/router.tsx` — session read (`readSession`), route guard
  (`beforeLoad` of the index / login / register routes plus the root-layout
  redirect effect), logout.
* `src/Pages/RegisterPage.tsx` and `src/Pages/LoginPage.tsx` — registration
  and login form submission over the stored user list.

Numbers handled by the JavaScript code (setpoints, consumption values) are
modelled as rationals; local-storage contents as `Option String`; the
`try/catch` around `JSON.parse` as an `Option`-returning parser.
-/

namespace HomeClimate

/-- `type Mode = "frio" | "calor" | "ventilacion"` from `HomePage.tsx`. -/
inductive Mode where
  | frio : Mode
  | calor : Mode
  | ventilacion : Mode
deriving DecidableEq, Repr

/-- `interface DeviceStatus` from `HomePage.tsx`. -/
structure DeviceStatus where
  connected : Bool
  acOn : Bool
  setpoint : ℚ
  mode : Mode
deriving DecidableEq, Repr

/-- `interface RealtimeStats` from `HomePage.tsx`. -/
structure RealtimeStats where
  kwhNow : ℚ
  co2Now : ℚ
  maintenanceDue : Bool
deriving DecidableEq, Repr

/-- The React state of the `HomePage` component: `device`, `stats`,
`lastSnapshot` (the single-slot undo buffer), the toast message and the
power-off confirmation modal flag. -/
structure HomeState where
  device : DeviceStatus
  stats : RealtimeStats
  lastSnapshot : Option DeviceStatus
  toast : Option String
  confirmOffOpen : Bool
deriving DecidableEq, Repr

/-- Initial `device` state: `useState<DeviceStatus>({ connected: true, acOn:
true, setpoint: 23, mode: "frio" })`. -/
def initDevice : DeviceStatus :=
  { connected := true, acOn := true, setpoint := 23, mode := Mode.frio }

/-- Initial `stats` state: `useState<RealtimeStats>({ kwhNow: 0.8, co2Now:
320, maintenanceDue: false })`. -/
def initStats : RealtimeStats :=
  { kwhNow := 8/10, co2Now := 320, maintenanceDue := false }

/-- Initial `HomePage` component state. -/
def initState : HomeState :=
  { device := initDevice, stats := initStats, lastSnapshot := none,
    toast := none, confirmOffOpen := false }

/-- `const drift = device.acOn ? 0.05 : -0.03` in the interval effect. -/
def driftOf (acOn : Bool) : ℚ :=
  if acOn then 5/100 else -(3/100)

/-- One two-second interval tick of the realtime-stats effect:
`k = Math.max(0, s.kwhNow + drift); co2 = Math.max(0, k * 400);
return { ...s, kwhNow: k, co2Now: co2 }`.  The effect depends on
`[device.acOn]`, so each tick reads the current power flag. -/
def tick (s : HomeState) : HomeState :=
  let drift := driftOf s.device.acOn
  let k := max 0 (s.stats.kwhNow + drift)
  let co2 := max 0 (k * 400)
  { s with stats := { s.stats with kwhNow := k, co2Now := co2 } }

/-- `toggleAC`: when the device is on it only opens the confirmation modal;
when off it snapshots the device and turns it on. -/
def toggleAC (s : HomeState) : HomeState :=
  if s.device.acOn then
    { s with confirmOffOpen := true }
  else
    { s with lastSnapshot := some s.device,
             device := { s.device with acOn := true },
             toast := some "Aire acondicionado encendido" }

/-- `confirmTurnOff`: closes the modal, snapshots the device and turns it
off. -/
def confirmTurnOff (s : HomeState) : HomeState :=
  { s with confirmOffOpen := false,
           lastSnapshot := some s.device,
           device := { s.device with acOn := false },
           toast := some "Aire acondicionado apagado" }

/-- Label used in the `changeMode` toast. -/
def modeLabel : Mode → String
  | Mode.frio => "Frío"
  | Mode.calor => "Calor"
  | Mode.ventilacion => "Ventilación"

/-- `changeMode`: snapshots the device, sets the mode and forces the power
flag on. -/
def changeMode (m : Mode) (s : HomeState) : HomeState :=
  { s with lastSnapshot := some s.device,
           device := { s.device with mode := m, acOn := true },
           toast := some ("Modo cambiado a " ++ modeLabel m) }

/-- `changeSetpoint`: rejects values outside `[16, 30]` with only a toast;
otherwise snapshots the device, stores the new setpoint and forces the power
flag on. -/
def changeSetpoint (v : ℚ) (s : HomeState) : HomeState :=
  if v < 16 ∨ v > 30 then
    { s with toast := some "El setpoint debe estar entre 16°C y 30°C" }
  else
    { s with lastSnapshot := some s.device,
             device := { s.device with setpoint := v, acOn := true } }

/-- The preset button `onClick`: snapshots the device and applies the preset
setpoint and mode, forcing the power flag on.  The three concrete presets
are `(24, frio)`, `(23, frio)` and `(device.setpoint, ventilacion)`. -/
def applyPreset (sp : ℚ) (m : Mode) (s : HomeState) : HomeState :=
  { s with lastSnapshot := some s.device,
           device := { s.device with setpoint := sp, mode := m, acOn := true },
           toast := some "Preset aplicado" }

/-- `undoLast`: a no-op when the single-slot buffer is empty; otherwise
restores the snapshot and clears the buffer. -/
def undoLast (s : HomeState) : HomeState :=
  match s.lastSnapshot with
  | none => s
  | some snap =>
      { s with device := snap, lastSnapshot := none,
               toast := some "Se deshicieron los últimos cambios" }

/-- The four kinds of device mutations of §4.4: power toggle, mode change,
setpoint change, preset application. -/
inductive Mutation where
  | power : Mutation
  | modeChange (m : Mode) : Mutation
  | setpointChange (v : ℚ) : Mutation
  | presetApply (sp : ℚ) (m : Mode) : Mutation

/-- A setpoint-change mutation is in range when `16 ≤ v ≤ 30`; the other
mutations carry no side condition. -/
def mutValid : Mutation → Prop
  | Mutation.setpointChange v => 16 ≤ v ∧ v ≤ 30
  | _ => True

/-- The full power-toggle interaction: `toggleAC`, followed by the modal's
`confirmTurnOff` when the device was on. -/
def applyPower (s : HomeState) : HomeState :=
  if s.device.acOn then confirmTurnOff (toggleAC s) else toggleAC s

/-- Dispatch a mutation to its handler. -/
def applyMutation : Mutation → HomeState → HomeState
  | Mutation.power, s => applyPower s
  | Mutation.modeChange m, s => changeMode m s
  | Mutation.setpointChange v, s => changeSetpoint v s
  | Mutation.presetApply sp m, s => applyPreset sp m s

/-! ### Accounts and sessions (`RegisterPage.tsx`, `LoginPage.tsx`, `router.tsx`) -/

/-- `type User` from `RegisterPage.tsx` / `LoginPage.tsx`. -/
structure User where
  id : Nat
  name : String
  email : String
  password : String
  createdAt : String
deriving DecidableEq, Repr

/-- `type Session = { id: number; name: string; email: string }` from
`router.tsx`; also the shape written by `saveAuth`. -/
structure Session where
  id : Nat
  name : String
  email : String
deriving DecidableEq, Repr

/-- The character class `\s` of the email regular expression and the
whitespace set of `String.prototype.trim`, restricted to the ASCII
whitespace characters. -/
def isJsSpace (c : Char) : Bool :=
  c == ' ' || c == '\t' || c == '\n' || c == '\r' || c == '\x0b' || c == '\x0c'

/-- `String.prototype.trim()`: strip leading and trailing whitespace. -/
def jsTrim (s : String) : String :=
  String.mk (((s.data.dropWhile isJsSpace).reverse.dropWhile isJsSpace).reverse)

/-- `String.prototype.toLowerCase()`, on the ASCII range. -/
def jsToLower (s : String) : String :=
  String.mk (s.data.map fun c =>
    if 'A' ≤ c ∧ c ≤ 'Z' then Char.ofNat (c.toNat + 32) else c)

/-- `const emailOk = (s) => /^[^\s@]+@[^\s@]+\.[^\s@]+$/.test(s)`.
The regular expression accepts exactly the strings with no whitespace,
exactly one `@`, a nonempty local part, and a dot in the interior of the
domain part (neither its first nor its last character needs to be the dot of
the match, so the condition is: some dot occurs at an interior position). -/
def emailOk (s : String) : Bool :=
  let cs := s.data
  let before := cs.takeWhile (fun c => c ≠ '@')
  let after := (cs.dropWhile (fun c => c ≠ '@')).drop 1
  cs.all (fun c => !(isJsSpace c)) &&
  cs.count '@' == 1 &&
  !before.isEmpty &&
  ((after.drop 1).dropLast.contains '.')

/-- The input fields of the registration form. -/
structure RegisterInput where
  name : String
  email : String
  pass1 : String
  pass2 : String
  accept : Bool

/-- The `errors` list of `RegisterPage`, built in source order. -/
def registerErrors (inp : RegisterInput) : List String :=
  (if (jsTrim inp.name).length < 2 then ["Nombre muy corto."] else []) ++
  (if !emailOk inp.email then ["Correo inválido."] else []) ++
  (if inp.pass1.length < 6 then ["La contraseña debe tener al menos 6 caracteres."] else []) ++
  (if inp.pass1 ≠ inp.pass2 then ["Las contraseñas no coinciden."] else []) ++
  (if !inp.accept then ["Debes aceptar los términos."] else [])

/-- The matching condition of the duplicate-email scan and of the login
scan: stored and submitted emails compared after `trim()` and
`toLowerCase()`. -/
def emailMatches (stored submitted : String) : Bool :=
  jsToLower (jsTrim stored) == jsToLower (jsTrim submitted)

/-- Result of a registration submission: the stored user list afterwards,
the session record written by `saveAuth` (if any), and the toast message. -/
structure RegisterResult where
  users : List User
  savedAuth : Option Session
  toast : Option String
deriving Repr

/-- `RegisterPage.onSubmit`, as a function of the stored user list, the form
input and the creation timestamp: validation errors first, then the linear
duplicate-email scan (`users.some(...)`), then append and `saveAuth`. -/
def register (users : List User) (inp : RegisterInput) (now : String) :
    RegisterResult :=
  let errs := registerErrors inp
  if errs ≠ [] then
    { users := users, savedAuth := none, toast := errs.head? }
  else if users.any (fun u => emailMatches u.email inp.email) then
    { users := users, savedAuth := none,
      toast := some "Ya existe una cuenta con ese correo." }
  else
    let newId := ((users.getLast?.map User.id).getD 0) + 1
    let user : User :=
      { id := newId, name := jsTrim inp.name,
        email := jsToLower (jsTrim inp.email),
        password := inp.pass1, createdAt := now }
    { users := users ++ [user],
      savedAuth := some { id := user.id, name := user.name, email := user.email },
      toast := some "Cuenta creada con éxito." }

/-- Result of a login submission: the session record written by `saveAuth`
(if any) and the toast message. -/
structure LoginResult where
  savedAuth : Option Session
  toast : Option String
deriving Repr

/-- `LoginPage.onSubmit`, as a function of the stored user list and the
submitted credentials: `users.find` scans for a matching email, then the
password must be exactly equal, else no session is written. -/
def login (users : List User) (email password : String) : LoginResult :=
  match users.find? (fun u => emailMatches u.email email) with
  | none =>
      { savedAuth := none,
        toast := some "Credenciales inválidas. Verifica tu correo y contraseña." }
  | some found =>
      if found.password ≠ password then
        { savedAuth := none,
          toast := some "Credenciales inválidas. Verifica tu correo y contraseña." }
      else
        { savedAuth := some { id := found.id, name := found.name, email := found.email },
          toast := some ("¡Bienvenido, " ++ found.name ++ "!") }

/-- A sample stored user, used by the concrete instances. -/
def sampleUser : User :=
  { id := 1, name := "Ana", email := "ana@mail.com", password := "secret1",
    createdAt := "2024-01-01T00:00:00.000Z" }

/-- A registration input whose email duplicates `sampleUser`'s email up to
case. -/
def sampleDupInput : RegisterInput :=
  { name := "Ana Maria", email := "Ana@Mail.com", pass1 := "secret1",
    pass2 := "secret1", accept := true }

/-- A sample session record, used by the concrete instances. -/
def sampleSession : Session :=
  { id := 1, name := "Ana", email := "ana@mail.com" }

/-! ### Route guard (`router.tsx`) -/

/-- The route paths of the route tree: `/`, `/login`, `/register`, and the
`*` not-found path. -/
inductive Path where
  | root : Path
  | login : Path
  | register : Path
  | other : Path
deriving DecidableEq, Repr

/-- The `beforeLoad` guards of `indexRoute`, `loginRoute` and
`registerRoute`: `/` redirects to `/login` without a session; `/login` and
`/register` redirect to `/` with a session; the `*` route has no guard. -/
def beforeLoad (sess : Option Session) : Path → Option Path
  | Path.root => match sess with
      | none => some Path.login
      | some _ => none
  | Path.login => match sess with
      | none => none
      | some _ => some Path.root
  | Path.register => match sess with
      | none => none
      | some _ => some Path.root
  | Path.other => none

/-- The `RootLayout` redirect effect: `if (!session && pathname !== "/login"
&& pathname !== "/register") navigate({ to: "/login" })`; it re-runs on
every pathname or session change. -/
def layoutGuard (sess : Option Session) (p : Path) : Option Path :=
  match sess with
  | some _ => none
  | none => if p = Path.login ∨ p = Path.register then none else some Path.login

/-- The path actually shown after navigating to `target` with session state
`sess`: the route's `beforeLoad` redirect, then the root-layout effect. -/
def resolveNav (sess : Option Session) (target : Path) : Path :=
  let p1 := (beforeLoad sess target).getD target
  (layoutGuard sess p1).getD p1

/-- `onLogout` removes the session record
(`localStorage.removeItem(AUTH_KEY)`), so any later `readSession` yields
`null`. -/
def onLogout (_sess : Option Session) : Option Session := none

/-! ### `readSession` and `JSON.parse` (`router.tsx`)

`JSON.parse` is a platform primitive; it is embedded as a recursive-descent
JSON parser returning `Option` (`none` plays the role of the thrown
`SyntaxError`, caught by the `try/catch` of `readSession`). -/

/-- JSON values, as produced by `JSON.parse`. -/
inductive Json where
  | null : Json
  | bool (b : Bool) : Json
  | num (q : ℚ) : Json
  | str (s : String) : Json
  | arr (elems : List Json) : Json
  | obj (members : List (String × Json)) : Json
deriving Repr

/-- JSON insignificant whitespace. -/
def skipWs (cs : List Char) : List Char :=
  cs.dropWhile (fun c => c == ' ' || c == '\t' || c == '\n' || c == '\r')

/-- Hexadecimal digit test for `\u` escapes. -/
def isHexChar (c : Char) : Bool :=
  c.isDigit || ('a' ≤ c && c ≤ 'f') || ('A' ≤ c && c ≤ 'F')

/-- Value of a hexadecimal digit. -/
def hexVal (c : Char) : Nat :=
  if c.isDigit then c.toNat - 48
  else if 'a' ≤ c && c ≤ 'f' then c.toNat - 87
  else c.toNat - 55

/-- Decimal value of a digit list. -/
def digitsToNat (cs : List Char) : Nat :=
  cs.foldl (fun n c => n * 10 + (c.toNat - 48)) 0

/-- Parse the body of a JSON string literal after its opening quote,
returning the decoded characters and the rest of the input. -/
def parseStringBody : List Char → Option (List Char × List Char)
  | [] => none
  | '"' :: rest => some ([], rest)
  | '\\' :: 'u' :: a :: b :: c :: d :: rest =>
      if isHexChar a && isHexChar b && isHexChar c && isHexChar d then
        match parseStringBody rest with
        | some (s, r) =>
            some (Char.ofNat (((hexVal a * 16 + hexVal b) * 16 + hexVal c) * 16 + hexVal d) :: s, r)
        | none => none
      else none
  | '\\' :: e :: rest =>
      let decoded : Option Char :=
        if e = '"' then some '"'
        else if e = '\\' then some '\\'
        else if e = '/' then some '/'
        else if e = 'b' then some '\x08'
        else if e = 'f' then some '\x0c'
        else if e = 'n' then some '\n'
        else if e = 'r' then some '\r'
        else if e = 't' then some '\t'
        else none
      match decoded with
      | none => none
      | some c =>
          match parseStringBody rest with
          | some (s, r) => some (c :: s, r)
          | none => none
  | c :: rest =>
      if c.toNat < 32 then none
      else
        match parseStringBody rest with
        | some (s, r) => some (c :: s, r)
        | none => none

/-- Parse an optional exponent part and apply it to `q`. -/
def parseExpPart (q : ℚ) (cs : List Char) : Option (ℚ × List Char) :=
  match cs with
  | 'e' :: r | 'E' :: r =>
      let signed : Bool × List Char :=
        match r with
        | '+' :: r2 => (false, r2)
        | '-' :: r2 => (true, r2)
        | _ => (false, r)
      let ed := signed.2.takeWhile Char.isDigit
      let rest := signed.2.dropWhile Char.isDigit
      if ed.isEmpty then none
      else
        let e := digitsToNat ed
        some (if signed.1 then q / (10 : ℚ) ^ e else q * (10 : ℚ) ^ e, rest)
  | _ => some (q, cs)

/-- Parse a JSON number (optional minus, integer part without leading
zeros, optional fraction, optional exponent). -/
def parseNumber (cs : List Char) : Option (ℚ × List Char) :=
  let signed : Bool × List Char :=
    match cs with
    | '-' :: r => (true, r)
    | _ => (false, cs)
  let intDigits := signed.2.takeWhile Char.isDigit
  let cs2 := signed.2.dropWhile Char.isDigit
  if intDigits.isEmpty then none
  else if intDigits.length > 1 && intDigits.head? == some '0' then none
  else
    let ipart : ℚ := (digitsToNat intDigits : ℚ)
    let withFrac : Option (ℚ × List Char) :=
      match cs2 with
      | '.' :: r =>
          let fd := r.takeWhile Char.isDigit
          let cs3 := r.dropWhile Char.isDigit
          if fd.isEmpty then none
          else some (ipart + (digitsToNat fd : ℚ) / (10 : ℚ) ^ fd.length, cs3)
      | _ => some (ipart, cs2)
    match withFrac with
    | none => none
    | some (q, cs3) => parseExpPart (if signed.1 then -q else q) cs3

mutual

/-- Parse one JSON value (fuelled recursion; the fuel bounds the nesting
depth). -/
def parseValue : Nat → List Char → Option (Json × List Char)
  | 0, _ => none
  | fuel + 1, cs =>
      match skipWs cs with
      | 'n' :: 'u' :: 'l' :: 'l' :: rest => some (Json.null, rest)
      | 't' :: 'r' :: 'u' :: 'e' :: rest => some (Json.bool true, rest)
      | 'f' :: 'a' :: 'l' :: 's' :: 'e' :: rest => some (Json.bool false, rest)
      | '"' :: rest =>
          match parseStringBody rest with
          | some (s, r) => some (Json.str (String.mk s), r)
          | none => none
      | '[' :: rest =>
          (match skipWs rest with
           | ']' :: rest2 => some (Json.arr [], rest2)
           | _ =>
              match parseElems fuel rest with
              | some (es, r) => some (Json.arr es, r)
              | none => none)
      | '\x7b' :: rest =>
          (match skipWs rest with
           | '\x7d' :: rest2 => some (Json.obj [], rest2)
           | _ =>
              match parseMembers fuel rest with
              | some (ms, r) => some (Json.obj ms, r)
              | none => none)
      | cs2 =>
          match parseNumber cs2 with
          | some (q, r) => some (Json.num q, r)
          | none => none

/-- Parse the comma-separated elements of a nonempty JSON array up to the
closing bracket. -/
def parseElems : Nat → List Char → Option (List Json × List Char)
  | 0, _ => none
  | fuel + 1, cs =>
      match parseValue fuel cs with
      | none => none
      | some (j, rest) =>
          match skipWs rest with
          | ',' :: rest2 =>
              match parseElems fuel rest2 with
              | some (es, r) => some (j :: es, r)
              | none => none
          | ']' :: rest2 => some ([j], rest2)
          | _ => none

/-- Parse the comma-separated members of a nonempty JSON object up to the
closing brace. -/
def parseMembers : Nat → List Char → Option (List (String × Json) × List Char)
  | 0, _ => none
  | fuel + 1, cs =>
      match skipWs cs with
      | '"' :: rest =>
          match parseStringBody rest with
          | none => none
          | some (key, rest2) =>
              match skipWs rest2 with
              | ':' :: rest3 =>
                  match parseValue fuel rest3 with
                  | none => none
                  | some (j, rest4) =>
                      match skipWs rest4 with
                      | ',' :: rest5 =>
                          match parseMembers fuel rest5 with
                          | some (ms, r) => some ((String.mk key, j) :: ms, r)
                          | none => none
                      | '\x7d' :: rest5 => some ([(String.mk key, j)], rest5)
                      | _ => none
              | _ => none
      | _ => none

end

/-- `JSON.parse`: parse one value, allowing trailing whitespace only;
`none` stands for a thrown `SyntaxError`. -/
def jsonParse (s : String) : Option Json :=
  match parseValue (2 * s.length + 2) s.data with
  | some (j, rest) => if skipWs rest = [] then some j else none
  | none => none

/-- `readSession` from `router.tsx`: `try { const v =
localStorage.getItem(AUTH_KEY); return v ? JSON.parse(v) : null } catch {
return null }`.  The stored value is `none` when the key is absent; a stored
empty string is falsy in JavaScript and also yields `null`.  The `as
Session` cast performs no runtime check, so the result is the raw parsed
value. -/
def readSession (stored : Option String) : Option Json :=
  match stored with
  | none => none
  | some v => if v = "" then none else jsonParse v

/-! ### Helper lemmas -/

/-- A rejected setpoint change only sets the toast. -/
lemma changeSetpoint_out_of_range (s : HomeState) (v : ℚ)
    (h : v < 16 ∨ v > 30) :
    changeSetpoint v s =
      { s with toast := some "El setpoint debe estar entre 16°C y 30°C" } := by
  simp [changeSetpoint, h]

/-- An accepted setpoint change snapshots, stores and powers on. -/
lemma changeSetpoint_in_range (s : HomeState) (v : ℚ)
    (h1 : 16 ≤ v) (h2 : v ≤ 30) :
    changeSetpoint v s =
      { s with lastSnapshot := some s.device,
               device := { s.device with setpoint := v, acOn := true } } := by
  have h : ¬(v < 16 ∨ v > 30) := by
    push_neg
    exact ⟨h1, h2⟩
  simp [changeSetpoint, h]

/-- Every valid mutation records the prior device state in the single-slot
undo buffer. -/
lemma applyMutation_snapshot (s : HomeState) (mu : Mutation)
    (h : mutValid mu) :
    (applyMutation mu s).lastSnapshot = some s.device := by
  cases mu with
  | power =>
      by_cases hac : s.device.acOn
      · simp [applyMutation, applyPower, hac, toggleAC, confirmTurnOff]
      · simp [applyMutation, applyPower, hac, toggleAC]
  | modeChange m => simp [applyMutation, changeMode]
  | setpointChange v =>
      obtain ⟨h1, h2⟩ := h
      simp [applyMutation, changeSetpoint_in_range s v h1 h2]
  | presetApply sp m => simp [applyMutation, applyPreset]

/-- Every valid mutation leaves the device record otherwise intact except
for its own fields, in particular it does not change the prior `device`
value used by the snapshot; stated as: undo after the mutation yields the
prior device.  Proved from the definitions of the handlers. -/
lemma applyMutation_device_agnostic (s : HomeState) (mu : Mutation)
    (h : mutValid mu) :
    (undoLast (applyMutation mu s)).device = s.device := by
  have hs := applyMutation_snapshot s mu h
  simp [undoLast, hs]

/-- Undo with an empty buffer is the identity. -/
lemma undoLast_of_none (s : HomeState) (h : s.lastSnapshot = none) :
    undoLast s = s := by
  simp [undoLast, h]

/-- Undo with a full buffer restores the snapshot and clears the buffer. -/
lemma undoLast_of_some (s : HomeState) (d : DeviceStatus)
    (h : s.lastSnapshot = some d) :
    undoLast s =
      { s with device := d, lastSnapshot := none,
               toast := some "Se deshicieron los últimos cambios" } := by
  simp [undoLast, h]

/-! ### Claims -/

/-- C1: for every setpoint input `v` with `v < 16` or `v > 30`, the
setpoint-change operation rejects the mutation and the stored setpoint is
unchanged afterwards; for every `v` with `16 ≤ v ≤ 30`, the operation stores
`v` as the new setpoint. -/
theorem changeSetpoint_validates_range (s : HomeState) (v : ℚ) :
    ((v < 16 ∨ v > 30) →
      (changeSetpoint v s).device.setpoint = s.device.setpoint) ∧
    (16 ≤ v → v ≤ 30 → (changeSetpoint v s).device.setpoint = v) := by
  constructor
  · intro h
    rw [changeSetpoint_out_of_range s v h]
  · intro h1 h2
    rw [changeSetpoint_in_range s v h1 h2]

/-- Witness for C1 at the initial device state: `31` is rejected and the
setpoint stays `23`; `20` is stored. -/
theorem changeSetpoint_validates_range_instance :
    ((31 : ℚ) > 30 ∧
      (changeSetpoint 31 initState).device.setpoint = initState.device.setpoint) ∧
    ((16 : ℚ) ≤ 20 ∧ (20 : ℚ) ≤ 30 ∧
      (changeSetpoint 20 initState).device.setpoint = 20) :=
  ⟨⟨by decide,
    (changeSetpoint_validates_range initState 31).1 (Or.inr (by decide))⟩,
   ⟨by decide, by decide,
    (changeSetpoint_validates_range initState 20).2 (by decide) (by decide)⟩⟩

/-- C2: performing any mutation (power toggle, mode change, in-range
setpoint change, preset application) and then one undo restores exactly the
device state that held immediately before the mutation; the first undo
clears the single-slot buffer, so a second undo with no intervening mutation
leaves the state unchanged. -/
theorem mutation_undo_restores_prior_state (s : HomeState) (mu : Mutation)
    (h : mutValid mu) :
    (undoLast (applyMutation mu s)).device = s.device ∧
    (undoLast (applyMutation mu s)).lastSnapshot = none ∧
    undoLast (undoLast (applyMutation mu s)) = undoLast (applyMutation mu s) := by
  have hs := applyMutation_snapshot s mu h
  have h1 := undoLast_of_some (applyMutation mu s) s.device hs
  refine ⟨by rw [h1], by rw [h1], ?_⟩
  apply undoLast_of_none
  rw [h1]

/-- Witness for C2: toggling power at the initial state (on → confirmed
off) then undoing restores the initial device; a second undo is a no-op. -/
theorem mutation_undo_restores_prior_state_instance :
    mutValid Mutation.power ∧
    ((undoLast (applyMutation Mutation.power initState)).device = initState.device ∧
     (undoLast (applyMutation Mutation.power initState)).lastSnapshot = none ∧
     undoLast (undoLast (applyMutation Mutation.power initState)) =
       undoLast (applyMutation Mutation.power initState)) :=
  ⟨trivial, mutation_undo_restores_prior_state initState Mutation.power trivial⟩

/-- C9 (implicit): the mode-change operation, the in-range setpoint-change
operation and every preset application set the power flag on as a side
effect, even when the device was off; `toggleAC` itself never leaves the
flag off (turning off goes through the confirmation); among valid mutations
only the power toggle (confirmed off from the on state) yields a powered-off
device. -/
theorem mutations_force_power_on (s : HomeState) :
    (∀ m, (changeMode m s).device.acOn = true) ∧
    (∀ v, 16 ≤ v → v ≤ 30 → (changeSetpoint v s).device.acOn = true) ∧
    (∀ sp m, (applyPreset sp m s).device.acOn = true) ∧
    (toggleAC s).device.acOn = true ∧
    (∀ mu, mutValid mu → (applyMutation mu s).device.acOn = false →
      mu = Mutation.power ∧ s.device.acOn = true) := by
  refine ⟨fun m => by simp [changeMode], ?_, fun sp m => by simp [applyPreset], ?_, ?_⟩
  · intro v h1 h2
    rw [changeSetpoint_in_range s v h1 h2]
  · by_cases hac : s.device.acOn
    · simp [toggleAC, hac]
    · simp [toggleAC, hac]
  · intro mu hv hoff
    cases mu with
    | power =>
        by_cases hac : s.device.acOn
        · exact ⟨rfl, hac⟩
        · simp [applyMutation, applyPower, hac, toggleAC] at hoff
    | modeChange m => simp [applyMutation, changeMode] at hoff
    | setpointChange v =>
        obtain ⟨h1, h2⟩ := hv
        rw [applyMutation, changeSetpoint_in_range s v h1 h2] at hoff
        simp at hoff
    | presetApply sp m => simp [applyMutation, applyPreset] at hoff

/-- Witness for C9: from the powered-off state, a mode change powers the
device on, and the only mutation producing a powered-off device at the
initial state is the power toggle. -/
theorem mutations_force_power_on_instance :
    (changeMode Mode.calor (confirmTurnOff initState)).device.acOn = true ∧
    ((16 : ℚ) ≤ 20 ∧ (20 : ℚ) ≤ 30 ∧
      (changeSetpoint 20 (confirmTurnOff initState)).device.acOn = true) ∧
    (applyPreset 24 Mode.frio (confirmTurnOff initState)).device.acOn = true ∧
    ((applyMutation Mutation.power initState).device.acOn = false ∧
      initState.device.acOn = true) :=
  ⟨(mutations_force_power_on (confirmTurnOff initState)).1 Mode.calor,
   ⟨by decide, by decide,
    (mutations_force_power_on (confirmTurnOff initState)).2.1 20 (by decide) (by decide)⟩,
   (mutations_force_power_on (confirmTurnOff initState)).2.2.1 24 Mode.frio,
   ⟨by decide,
    ((mutations_force_power_on initState).2.2.2.2 Mutation.power trivial
      (by decide)).2⟩⟩

/-- C10 (implicit): a rejected (out-of-range) setpoint change is atomic with
respect to all state: the entire device record, the single-slot undo buffer,
the stats and the modal flag are unchanged — in particular the rejected
mutation does not overwrite the stored undo snapshot. -/
theorem rejected_setpoint_frame (s : HomeState) (v : ℚ)
    (h : v < 16 ∨ v > 30) :
    (changeSetpoint v s).device = s.device ∧
    (changeSetpoint v s).lastSnapshot = s.lastSnapshot ∧
    (changeSetpoint v s).stats = s.stats ∧
    (changeSetpoint v s).confirmOffOpen = s.confirmOffOpen := by
  rw [changeSetpoint_out_of_range s v h]
  exact ⟨rfl, rfl, rfl, rfl⟩

/-- Witness for C10: rejecting `15` after a mode change leaves the latest
snapshot (and the device) untouched. -/
theorem rejected_setpoint_frame_instance :
    (15 : ℚ) < 16 ∧
    ((changeSetpoint 15 (changeMode Mode.calor initState)).device =
        (changeMode Mode.calor initState).device ∧
     (changeSetpoint 15 (changeMode Mode.calor initState)).lastSnapshot =
        (changeMode Mode.calor initState).lastSnapshot ∧
     (changeSetpoint 15 (changeMode Mode.calor initState)).stats =
        (changeMode Mode.calor initState).stats ∧
     (changeSetpoint 15 (changeMode Mode.calor initState)).confirmOffOpen =
        (changeMode Mode.calor initState).confirmOffOpen) :=
  ⟨by decide,
   rejected_setpoint_frame (changeMode Mode.calor initState) 15
     (Or.inl (by decide))⟩

/-- C3: for every stored user list and every registration request whose
email equals, after trimming and lowercasing, the email of some user already
in the list (the condition computed by the linear scan `users.some`), the
registration is rejected: the stored list is unchanged, no session record is
written, and a failure message is shown. -/
theorem register_rejects_duplicate_email (users : List User)
    (inp : RegisterInput) (now : String)
    (h : ∃ u ∈ users, emailMatches u.email inp.email = true) :
    (register users inp now).users = users ∧
    (register users inp now).savedAuth = none ∧
    (register users inp now).toast ≠ none := by
  by_cases herr : registerErrors inp = []
  · have hany : users.any (fun u => emailMatches u.email inp.email) = true := by
      rw [List.any_eq_true]
      obtain ⟨u, hu, hm⟩ := h
      exact ⟨u, hu, hm⟩
    simp [register, herr, hany]
  · cases hl : registerErrors inp with
    | nil => exact absurd hl herr
    | cons a t => simp [register, hl]

/-- Witness for C3: registering `Ana@Mail.com` when `ana@mail.com` is
already stored is rejected without touching the list or session. -/
theorem register_rejects_duplicate_email_instance :
    (∃ u ∈ [sampleUser], emailMatches u.email sampleDupInput.email = true) ∧
    ((register [sampleUser] sampleDupInput "t1").users = [sampleUser] ∧
     (register [sampleUser] sampleDupInput "t1").savedAuth = none ∧
     (register [sampleUser] sampleDupInput "t1").toast ≠ none) :=
  ⟨by decide,
   register_rejects_duplicate_email [sampleUser] sampleDupInput "t1" (by decide)⟩

/-- C4: if no stored user's email matches the submitted email
(case-insensitive, trimmed) or the first matching user's password is not
exactly the submitted password, no session record is written and a failure
message is shown; a session record is written only for a matching email and
an exact password match, and then it copies the matched user's public
fields. -/
theorem login_requires_exact_credentials (users : List User)
    (email pw : String) :
    (users.find? (fun u => emailMatches u.email email) = none →
      (login users email pw).savedAuth = none ∧
      (login users email pw).toast ≠ none) ∧
    (∀ u, users.find? (fun u => emailMatches u.email email) = some u →
      u.password ≠ pw →
      (login users email pw).savedAuth = none ∧
      (login users email pw).toast ≠ none) ∧
    ((login users email pw).savedAuth ≠ none →
      ∃ u, users.find? (fun u => emailMatches u.email email) = some u ∧
        u.password = pw ∧
        (login users email pw).savedAuth =
          some { id := u.id, name := u.name, email := u.email }) := by
  cases hf : users.find? (fun u => emailMatches u.email email) with
  | none =>
      refine ⟨fun _ => by simp [login, hf], ?_, ?_⟩
      · intro u hu
        exact absurd hu (by simp)
      · intro hs
        simp [login, hf] at hs
  | some u0 =>
      refine ⟨fun hn => by simp at hn, ?_, ?_⟩
      · intro u hu hpw
        injection hu with hueq
        subst hueq
        simp [login, hf, hpw]
      · intro hs
        by_cases hp : u0.password = pw
        · exact ⟨u0, rfl, hp, by simp [login, hf, hp]⟩
        · exfalso
          simp [login, hf, hp] at hs

/-- Witness for C4: with `ana@mail.com` stored, a wrong password writes no
session; the exact password yields the copied session record. -/
theorem login_requires_exact_credentials_instance :
    ([sampleUser].find? (fun u => emailMatches u.email "ana@mail.com") =
        some sampleUser ∧
      sampleUser.password ≠ "wrong") ∧
    ((login [sampleUser] "ana@mail.com" "wrong").savedAuth = none ∧
     (login [sampleUser] "ana@mail.com" "wrong").toast ≠ none) :=
  ⟨⟨by decide, by decide⟩,
   (login_requires_exact_credentials [sampleUser] "ana@mail.com" "wrong").2.1
     sampleUser (by decide) (by decide)⟩

/-- C5: each two-second tick computes the new consumption as
`max 0 (previous + 0.05)` while powered on and `max 0 (previous - 0.03)`
while off — never below zero — and the emissions value is exactly `400`
times the resulting consumption. -/
theorem tick_linear_drift (s : HomeState) :
    (s.device.acOn = true →
      (tick s).stats.kwhNow = max 0 (s.stats.kwhNow + 5/100)) ∧
    (s.device.acOn = false →
      (tick s).stats.kwhNow = max 0 (s.stats.kwhNow - 3/100)) ∧
    0 ≤ (tick s).stats.kwhNow ∧
    (tick s).stats.co2Now = 400 * (tick s).stats.kwhNow := by
  refine ⟨fun h => by simp [tick, driftOf, h], ?_, ?_, ?_⟩
  · intro h
    simp [tick, driftOf, h, sub_eq_add_neg]
  · simp only [tick]
    exact le_max_left _ _
  · simp only [tick]
    have hk : (0 : ℚ) ≤ max 0 (s.stats.kwhNow + driftOf s.device.acOn) :=
      le_max_left _ _
    rw [max_eq_right (by positivity), mul_comm]

/-- Witness for C5: one tick from the initial (powered-on) state, and one
from the confirmed powered-off state. -/
theorem tick_linear_drift_instance :
    (initState.device.acOn = true ∧
      (tick initState).stats.kwhNow = max 0 (initState.stats.kwhNow + 5/100)) ∧
    ((confirmTurnOff initState).device.acOn = false ∧
      (tick (confirmTurnOff initState)).stats.kwhNow =
        max 0 ((confirmTurnOff initState).stats.kwhNow - 3/100)) :=
  ⟨⟨rfl, (tick_linear_drift initState).1 rfl⟩,
   ⟨rfl, (tick_linear_drift (confirmTurnOff initState)).2.1 rfl⟩⟩

/-- C6: a power toggle flips the power flag, and the very next tick already
uses the new flag's drift (the interval effect depends on the power flag, so
no tick runs with a stale flag); in particular toggling off then on from a
powered-on state leaves the flag on and the first subsequent tick uses the
powered-on drift. -/
theorem power_toggle_drift_within_one_tick (s : HomeState)
    (h : s.device.acOn = true) :
    (applyPower s).device.acOn = (!s.device.acOn) ∧
    (tick (applyPower s)).stats.kwhNow =
      max 0 ((applyPower s).stats.kwhNow + driftOf (applyPower s).device.acOn) ∧
    (applyPower (applyPower s)).device.acOn = true ∧
    (tick (applyPower (applyPower s))).stats.kwhNow =
      max 0 ((applyPower (applyPower s)).stats.kwhNow + 5/100) := by
  have key : ∀ t : HomeState, t.device.acOn = false →
      (applyPower t).device.acOn = true := by
    intro t ht
    simp [applyPower, ht, toggleAC]
  have h1 : (applyPower s).device.acOn = false := by
    simp [applyPower, h, toggleAC, confirmTurnOff]
  have h2 : (applyPower (applyPower s)).device.acOn = true := key (applyPower s) h1
  refine ⟨by rw [h1, h]; rfl, rfl, h2, ?_⟩
  have e : (tick (applyPower (applyPower s))).stats.kwhNow =
      max 0 ((applyPower (applyPower s)).stats.kwhNow +
        driftOf (applyPower (applyPower s)).device.acOn) := rfl
  rw [e, h2]
  norm_num [driftOf]

/-- Witness for C6: toggling power twice from the initial state. -/
theorem power_toggle_drift_within_one_tick_instance :
    initState.device.acOn = true ∧
    ((applyPower initState).device.acOn = (!initState.device.acOn) ∧
     (tick (applyPower initState)).stats.kwhNow =
       max 0 ((applyPower initState).stats.kwhNow +
         driftOf (applyPower initState).device.acOn) ∧
     (applyPower (applyPower initState)).device.acOn = true ∧
     (tick (applyPower (applyPower initState))).stats.kwhNow =
       max 0 ((applyPower (applyPower initState)).stats.kwhNow + 5/100)) :=
  ⟨rfl, power_toggle_drift_within_one_tick initState rfl⟩

/-- C7: without a session every navigation to a protected path (neither
`/login` nor `/register`) resolves to `/login`; with a session a navigation
to `/login` or `/register` resolves to the default protected path `/`; and
after logout removes the session record, every subsequent navigation to a
protected path resolves to `/login`. -/
theorem route_guard_redirects (sess : Option Session) (target : Path) :
    (sess = none → target ≠ Path.login → target ≠ Path.register →
      resolveNav sess target = Path.login) ∧
    (sess ≠ none → (target = Path.login ∨ target = Path.register) →
      resolveNav sess target = Path.root) ∧
    (∀ t, t ≠ Path.login → t ≠ Path.register →
      resolveNav (onLogout sess) t = Path.login) := by
  refine ⟨?_, ?_, ?_⟩
  · rintro rfl h1 h2
    cases target <;> simp_all [resolveNav, beforeLoad, layoutGuard]
  · intro hs ht
    cases sess with
    | none => exact absurd rfl hs
    | some s0 =>
        rcases ht with rfl | rfl <;> simp [resolveNav, beforeLoad, layoutGuard]
  · intro t h1 h2
    cases t <;> simp_all [resolveNav, beforeLoad, layoutGuard, onLogout]

/-- Witness for C7: unauthenticated navigation to `/` lands on `/login`;
authenticated navigation to `/login` lands on `/`; after logout, `/` lands
on `/login`. -/
theorem route_guard_redirects_instance :
    resolveNav none Path.root = Path.login ∧
    resolveNav (some sampleSession) Path.login = Path.root ∧
    resolveNav (onLogout (some sampleSession)) Path.root = Path.login :=
  ⟨(route_guard_redirects none Path.root).1 rfl (by decide) (by decide),
   (route_guard_redirects (some sampleSession) Path.login).2.1 (by simp)
     (Or.inl rfl),
   (route_guard_redirects (some sampleSession) Path.root).2.2 Path.root
     (by decide) (by decide)⟩

/-- C8: the session read is total over every possible content of the
session key — absent, valid JSON, or malformed JSON: it returns the parsed
value when the stored string parses, and `null` both when the key is absent
and when parsing fails (the thrown `SyntaxError` is modelled by the parser
returning `none` and is absorbed by the `catch`); being a total function, it
never propagates an exception. -/
theorem readSession_total (stored : Option String) :
    (stored = none → readSession stored = none) ∧
    (∀ v, stored = some v →
      (jsonParse v = none → readSession stored = none) ∧
      (∀ j, jsonParse v = some j → readSession stored = some j)) := by
  constructor
  · rintro rfl
    rfl
  · rintro v rfl
    by_cases hv : v = ""
    · subst hv
      have h0 : jsonParse "" = none := rfl
      refine ⟨fun _ => rfl, fun j hj => ?_⟩
      rw [h0] at hj
      exact Option.noConfusion hj
    · exact ⟨fun hp => by simp [readSession, hv, hp],
        fun j hj => by simp [readSession, hv, hj]⟩

/-- Witness for C8: an absent key, a parsing value and a malformed value. -/
theorem readSession_total_instance :
    readSession none = none ∧
    (jsonParse "true" = some (Json.bool true) ∧
      readSession (some "true") = some (Json.bool true)) ∧
    (jsonParse "not json" = none ∧ readSession (some "not json") = none) :=
  ⟨(readSession_total none).1 rfl,
   ⟨rfl, ((readSession_total (some "true")).2 "true" rfl).2 (Json.bool true) rfl⟩,
   ⟨rfl, ((readSession_total (some "not json")).2 "not json" rfl).1 rfl⟩⟩

end HomeClimate
